import Mathlib

/-!
# Verification of the CropSense RINDM nutrient-depletion engine

A shallow embedding of the rainfall-induced nutrient-depletion model
(`src/backend/src/models/rindm.py`), the threshold banding
(`src/backend/src/utils/crop_nutrient_database.py`), the cycle manager
(`src/backend/src/services/rindm_cycle_manager.py`, the richer of the two
duplicated variants, which the spec declares authoritative) and the weather
monitor loop (`src/backend/src/services/weather_monitor.py`).

Python floats are modelled as rationals (ℚ).  Python's 2-decimal `round`
(half-to-even on binary floats) is modelled as round-to-nearest on ℚ
(`round2`); no property proved below depends on the tie-breaking direction.
Database rows become explicit record state; timestamps are abstract naturals.
-/

namespace CropSense

/-- The three tracked soil nutrients. -/
inductive Nutrient where
  | N | P | K
deriving DecidableEq, Repr

/-- Soil classes used by the model (`"sandy"`, `"loamy"`, `"clay"` in the source). -/
inductive SoilType where
  | sandy | loamy | clay
deriving DecidableEq, Repr

/-- Python's `round(x, 2)`: round to 2 decimal places. -/
def round2 (x : ℚ) : ℚ := (round (x * 100) : ℤ) / 100

/-- `LEACHING_COEFFICIENTS` table from `rindm.py` (fraction lost per 100 mm rainfall). -/
def LEACHING_COEFFICIENTS : Nutrient → SoilType → ℚ
  | .N, .sandy => 0.30
  | .N, .loamy => 0.15
  | .N, .clay  => 0.05
  | .P, .sandy => 0.08
  | .P, .loamy => 0.05
  | .P, .clay  => 0.03
  | .K, .sandy => 0.20
  | .K, .loamy => 0.12
  | .K, .clay  => 0.06

/-- `RUNOFF_COEFFICIENTS` table from `rindm.py` (fraction lost through surface runoff). -/
def RUNOFF_COEFFICIENTS : Nutrient → SoilType → ℚ
  | .N, .sandy => 0.05
  | .N, .loamy => 0.15
  | .N, .clay  => 0.30
  | .P, .sandy => 0.10
  | .P, .loamy => 0.20
  | .P, .clay  => 0.35
  | .K, .sandy => 0.08
  | .K, .loamy => 0.18
  | .K, .clay  => 0.28

/-- `DEFAULT_SLOPE` from `rindm.py` (degrees). -/
def DEFAULT_SLOPE : ℚ := 3.0

/-- `RainfallNutrientDepletionModel._determine_soil_type`: validate the texture
percentages sum to 100 within 1 point, then apply the simplified USDA rule.
The dynamic suffix of the Python error message (naming the actual total) is omitted. -/
def determine_soil_type (sand_pct silt_pct clay_pct : Option ℚ) : Except String SoilType :=
  match sand_pct, silt_pct, clay_pct with
  | some sand, some silt, some clay =>
    let total := sand + silt + clay
    if ¬ (99 ≤ total ∧ total ≤ 101) then
      .error "Texture percentages must sum to 100"
    else if 40 ≤ clay then .ok .clay
    else if 70 ≤ sand then .ok .sandy
    else if 50 ≤ sand then .ok .sandy
    else if 27 ≤ clay then .ok .clay
    else .ok .loamy
  | _, _, _ => .error "All texture percentages must be provided"

/-- `RainfallNutrientDepletionModel._calculate_intensity_factor`. -/
def calculate_intensity_factor (rainfall_mm duration_hours : ℚ) : ℚ :=
  if duration_hours ≤ 0 then 0.5
  else min 1 ((rainfall_mm / duration_hours) / 25)

/-- `RainfallNutrientDepletionModel._calculate_slope_factor`. -/
def calculate_slope_factor (slope_degrees : ℚ) : ℚ :=
  1 + min (slope_degrees / 15) 1

/-- The unrounded `leaching_loss` intermediate of `calculate_nutrient_loss`:
`current_level * leaching_coef * rainfall_factor` with `rainfall_factor = rainfall_mm / 100`. -/
def leaching_loss_raw (nut : Nutrient) (st : SoilType) (current_level rainfall_mm : ℚ) : ℚ :=
  current_level * LEACHING_COEFFICIENTS nut st * (rainfall_mm / 100)

/-- The unrounded `runoff_loss` intermediate of `calculate_nutrient_loss`:
`current_level * runoff_coef * intensity_factor * slope_factor`. -/
def runoff_loss_raw (nut : Nutrient) (st : SoilType)
    (current_level intensity_factor slope_factor : ℚ) : ℚ :=
  current_level * RUNOFF_COEFFICIENTS nut st * intensity_factor * slope_factor

/-- The per-nutrient entry of the `results` dict built by `calculate_nutrient_loss`. -/
structure NutrientDetail where
  total_loss : ℚ
  leaching_loss : ℚ
  runoff_loss : ℚ
  remaining : ℚ
  loss_percentage : ℚ
deriving DecidableEq, Repr

/-- One loop iteration of `calculate_nutrient_loss` (body of the `for nutrient, ...` loop). -/
def mkNutrientDetail (nut : Nutrient) (st : SoilType)
    (current_level rainfall_mm intensity_factor slope_factor : ℚ) : NutrientDetail :=
  let leaching_loss := leaching_loss_raw nut st current_level rainfall_mm
  let runoff_loss := runoff_loss_raw nut st current_level intensity_factor slope_factor
  let total_loss := min (leaching_loss + runoff_loss) current_level
  { total_loss := round2 total_loss
    leaching_loss := round2 leaching_loss
    runoff_loss := round2 runoff_loss
    remaining := round2 (current_level - total_loss)
    loss_percentage := round2 (if 0 < current_level then total_loss / current_level * 100 else 0) }

/-- Return value of `calculate_nutrient_loss` (top-level keys plus the `details` dict). -/
structure LossResult where
  N_loss : ℚ
  P_loss : ℚ
  K_loss : ℚ
  N_remaining : ℚ
  P_remaining : ℚ
  K_remaining : ℚ
  soil_type_used : SoilType
  detailN : NutrientDetail
  detailP : NutrientDetail
  detailK : NutrientDetail
deriving DecidableEq, Repr

/-- The computation part of `calculate_nutrient_loss`, after validation and soil
resolution have succeeded. -/
def nutrient_loss_core (rainfall_mm duration_hours N_current P_current K_current : ℚ)
    (st : SoilType) (slope_degrees : ℚ) : LossResult :=
  let intensity_factor := calculate_intensity_factor rainfall_mm duration_hours
  let slope_factor := calculate_slope_factor slope_degrees
  let dN := mkNutrientDetail .N st N_current rainfall_mm intensity_factor slope_factor
  let dP := mkNutrientDetail .P st P_current rainfall_mm intensity_factor slope_factor
  let dK := mkNutrientDetail .K st K_current rainfall_mm intensity_factor slope_factor
  { N_loss := dN.total_loss
    P_loss := dP.total_loss
    K_loss := dK.total_loss
    N_remaining := dN.remaining
    P_remaining := dP.remaining
    K_remaining := dK.remaining
    soil_type_used := st
    detailN := dN
    detailP := dP
    detailK := dK }

/-- `RainfallNutrientDepletionModel.calculate_nutrient_loss`.  The `soil_type`
string argument is modelled as `Option SoilType` (an invalid soil string, not
representable here, also raises `ValueError` in the source). -/
def calculate_nutrient_loss (rainfall_mm duration_hours N_current P_current K_current : ℚ)
    (soil_type : Option SoilType) (sand_pct silt_pct clay_pct : Option ℚ)
    (slope_degrees : ℚ) : Except String LossResult :=
  if rainfall_mm < 0 then .error "Rainfall cannot be negative"
  else if duration_hours < 0 then .error "Duration cannot be negative"
  else if N_current < 0 ∨ P_current < 0 ∨ K_current < 0 then
    .error "Nutrient levels cannot be negative"
  else
    let soilE : Except String SoilType :=
      match soil_type with
      | some st => .ok st
      | none =>
        match sand_pct, silt_pct, clay_pct with
        | some _, some _, some _ => determine_soil_type sand_pct silt_pct clay_pct
        | _, _, _ =>
          .error "Must provide either soil_type OR all texture percentages"
    match soilE with
    | .error e => .error e
    | .ok st =>
      .ok (nutrient_loss_core rainfall_mm duration_hours N_current P_current K_current
            st slope_degrees)

/-- One entry of the `rainfall_events` list passed to `calculate_cumulative_loss`:
a dict with `rainfall_mm` and an optional `duration_hours` (default 2.0). -/
structure RainEvent where
  rainfall_mm : ℚ
  duration_hours : Option ℚ
deriving DecidableEq, Repr

/-- One entry of the `event_details` ledger built by `calculate_cumulative_loss`. -/
structure EventDetail where
  event_number : ℕ
  N_loss : ℚ
  P_loss : ℚ
  K_loss : ℚ
  N_after : ℚ
  P_after : ℚ
  K_after : ℚ
deriving DecidableEq, Repr

/-- Return value of `calculate_cumulative_loss`. -/
structure CumulativeResult where
  initial_N : ℚ
  initial_P : ℚ
  initial_K : ℚ
  final_N : ℚ
  final_P : ℚ
  final_K : ℚ
  total_N_loss : ℚ
  total_P_loss : ℚ
  total_K_loss : ℚ
  loss_percentage_N : ℚ
  loss_percentage_P : ℚ
  loss_percentage_K : ℚ
  events : List EventDetail
deriving DecidableEq, Repr

/-- The `for i, event in enumerate(rainfall_events)` loop of
`calculate_cumulative_loss`, carrying the current levels, the ledger built so
far, and the enumeration index.  An exception from `calculate_nutrient_loss`
propagates, aborting the whole computation. -/
def cumulativeLoop (soil_type : Option SoilType) (sand_pct silt_pct clay_pct : Option ℚ) :
    List RainEvent → ℚ → ℚ → ℚ → List EventDetail → ℕ →
    Except String (ℚ × ℚ × ℚ × List EventDetail)
  | [], current_N, current_P, current_K, acc, _ => .ok (current_N, current_P, current_K, acc)
  | e :: rest, current_N, current_P, current_K, acc, i =>
    match calculate_nutrient_loss e.rainfall_mm (e.duration_hours.getD 2)
        current_N current_P current_K soil_type sand_pct silt_pct clay_pct DEFAULT_SLOPE with
    | .error msg => .error msg
    | .ok r =>
      cumulativeLoop soil_type sand_pct silt_pct clay_pct rest
        r.N_remaining r.P_remaining r.K_remaining
        (acc ++ [{ event_number := i + 1
                   N_loss := r.N_loss, P_loss := r.P_loss, K_loss := r.K_loss
                   N_after := r.N_remaining, P_after := r.P_remaining, K_after := r.K_remaining }])
        (i + 1)

/-- `RainfallNutrientDepletionModel.calculate_cumulative_loss`. -/
def calculate_cumulative_loss (rainfall_events : List RainEvent)
    (initial_N initial_P initial_K : ℚ) (soil_type : Option SoilType)
    (sand_pct silt_pct clay_pct : Option ℚ) : Except String CumulativeResult :=
  (cumulativeLoop soil_type sand_pct silt_pct clay_pct rainfall_events
      initial_N initial_P initial_K [] 0).map fun r =>
    let current_N := r.1
    let current_P := r.2.1
    let current_K := r.2.2.1
    { initial_N := initial_N, initial_P := initial_P, initial_K := initial_K
      final_N := round2 current_N, final_P := round2 current_P, final_K := round2 current_K
      total_N_loss := round2 (initial_N - current_N)
      total_P_loss := round2 (initial_P - current_P)
      total_K_loss := round2 (initial_K - current_K)
      loss_percentage_N := round2 (if 0 < initial_N then (initial_N - current_N) / initial_N * 100 else 0)
      loss_percentage_P := round2 (if 0 < initial_P then (initial_P - current_P) / initial_P * 100 else 0)
      loss_percentage_K := round2 (if 0 < initial_K then (initial_K - current_K) / initial_K * 100 else 0)
      events := r.2.2.2 }

/-- The specification's single-event step for the cumulative fold: run the
single-event calculator and carry each nutrient's `remaining` forward as the
next event's current level.  Errors propagate through the fold. -/
def single_event_step (soil_type : Option SoilType) (sand_pct silt_pct clay_pct : Option ℚ)
    (acc : Except String (ℚ × ℚ × ℚ)) (e : RainEvent) : Except String (ℚ × ℚ × ℚ) :=
  acc.bind fun s =>
    (calculate_nutrient_loss e.rainfall_mm (e.duration_hours.getD 2)
        s.1 s.2.1 s.2.2 soil_type sand_pct silt_pct clay_pct DEFAULT_SLOPE).map
      fun r => (r.N_remaining, r.P_remaining, r.K_remaining)

/-- The specification's cumulative computation: a left-to-right `foldl` of the
single-event calculator over the ordered event list. -/
def cumulative_fold_spec (soil_type : Option SoilType) (sand_pct silt_pct clay_pct : Option ℚ)
    (rainfall_events : List RainEvent) (init : ℚ × ℚ × ℚ) : Except String (ℚ × ℚ × ℚ) :=
  rainfall_events.foldl (single_event_step soil_type sand_pct silt_pct clay_pct) (.ok init)

/-- The classification rule exactly as the claim words it:
clay ≥ 40 → Clay, else sand ≥ 50 → Sandy, else clay ≥ 27 → Clay, else Loamy. -/
def soil_rule_spec (sand_pct clay_pct : ℚ) : SoilType :=
  if 40 ≤ clay_pct then .clay
  else if 50 ≤ sand_pct then .sandy
  else if 27 ≤ clay_pct then .clay
  else .loamy

/-! ## Threshold banding (`crop_nutrient_database.py`) -/

/-- The five status levels returned by `check_nutrient_status.get_status`. -/
inductive BandLevel where
  | CRITICAL | LOW | MODERATE | GOOD | HIGH
deriving DecidableEq, Repr

/-- `NUTRIENT_THRESHOLDS['critical']`. -/
def thresholds_critical : Nutrient → ℚ
  | .N => 30
  | .P => 10
  | .K => 40

/-- `NUTRIENT_THRESHOLDS['low']`. -/
def thresholds_low : Nutrient → ℚ
  | .N => 60
  | .P => 20
  | .K => 80

/-- `NUTRIENT_THRESHOLDS['adequate']`. -/
def thresholds_adequate : Nutrient → ℚ
  | .N => 100
  | .P => 30
  | .K => 120

/-- `NUTRIENT_THRESHOLDS['high']`. -/
def thresholds_high : Nutrient → ℚ
  | .N => 150
  | .P => 50
  | .K => 200

/-- `check_nutrient_status.get_status`: strict `<` against each cutoff in turn. -/
def get_status (nutrient_value : ℚ) (nut : Nutrient) : BandLevel :=
  if nutrient_value < thresholds_critical nut then .CRITICAL
  else if nutrient_value < thresholds_low nut then .LOW
  else if nutrient_value < thresholds_adequate nut then .MODERATE
  else if nutrient_value < thresholds_high nut then .GOOD
  else .HIGH

/-- `status_priority` dict of `check_nutrient_status`. -/
def status_priority : BandLevel → ℕ
  | .CRITICAL => 4
  | .LOW => 3
  | .MODERATE => 2
  | .GOOD => 1
  | .HIGH => 0

/-- Whether a band level is `CRITICAL` or `LOW` (the `in ['CRITICAL', 'LOW']` check). -/
def isCriticalOrLow : BandLevel → Bool
  | .CRITICAL => true
  | .LOW => true
  | _ => false

/-- Return value of `check_nutrient_status` (message strings omitted). -/
structure NutrientStatus where
  levelN : BandLevel
  levelP : BandLevel
  levelK : BandLevel
  overall_status : BandLevel
  needs_soil_test : Bool
deriving DecidableEq, Repr

/-- `check_nutrient_status`.  Python's `max([N, P, K], key=priority)` keeps the
first element among ties, modelled by strict-greater updates in order. -/
def check_nutrient_status (N P K : ℚ) : NutrientStatus :=
  let nS := get_status N .N
  let pS := get_status P .P
  let kS := get_status K .K
  let o1 := if status_priority pS > status_priority nS then pS else nS
  let o2 := if status_priority kS > status_priority o1 then kS else o1
  { levelN := nS, levelP := pS, levelK := kS
    overall_status := o2
    needs_soil_test := isCriticalOrLow nS || isCriticalOrLow pS || isCriticalOrLow kS }

/-! ## Cycle state machine (`src/services/rindm_cycle_manager.py`) -/

/-- The `status` column of `crop_cycles` (`'active'` / `'completed'`). -/
inductive CycleStatus where
  | active | completed
deriving DecidableEq, Repr

/-- The `crop_cycles` row for one cycle (fields the claims touch; timestamps
and dates are abstract naturals). -/
structure Cycle where
  status : CycleStatus
  soil_type : SoilType
  current_n : ℚ
  current_p : ℚ
  current_k : ℚ
  initial_n : ℚ
  initial_p : ℚ
  initial_k : ℚ
  final_n : Option ℚ
  final_p : Option ℚ
  final_k : Option ℚ
  total_crop_uptake_n : ℚ
  total_crop_uptake_p : ℚ
  total_crop_uptake_k : ℚ
  total_rainfall_loss_n : ℚ
  total_rainfall_loss_p : ℚ
  total_rainfall_loss_k : ℚ
  rainfall_event_count : ℕ
  last_weather_check : ℕ
  actual_end_date : Option ℕ
  latitude : Option ℚ
  longitude : Option ℚ
deriving DecidableEq, Repr

/-- A `rainfall_events` row. -/
structure RainfallEventRec where
  rainfall_mm : ℚ
  duration_hours : ℚ
  intensity_mm_per_hour : ℚ
  n_before_event : ℚ
  p_before_event : ℚ
  k_before_event : ℚ
  nutrient_loss_n : ℚ
  nutrient_loss_p : ℚ
  nutrient_loss_k : ℚ
  n_after_event : ℚ
  p_after_event : ℚ
  k_after_event : ℚ
deriving DecidableEq, Repr

/-- The `measurement_type` tag of `nutrient_measurements`. -/
inductive MeasurementType where
  | cycle_start | rainfall_update | cycle_end
deriving DecidableEq, Repr

/-- A `nutrient_measurements` row (free-text `notes` omitted). -/
structure Measurement where
  mtype : MeasurementType
  n_kg_ha : ℚ
  p_kg_ha : ℚ
  k_kg_ha : ℚ
  below_threshold : Bool
deriving DecidableEq, Repr

/-- A `soil_test_recommendations` row (alert; message text omitted). -/
structure Alert where
  current_n : ℚ
  current_p : ℚ
  current_k : ℚ
deriving DecidableEq, Repr

/-- The record-store state for one cycle: its row plus its append-only logs. -/
structure CycleState where
  cycle : Cycle
  events : List RainfallEventRec
  measurements : List Measurement
  alerts : List Alert
deriving DecidableEq, Repr

/-- Result dict of `process_rainfall_event` (domain fields only). -/
structure ProcessResult where
  success : Bool
  rainfall_detected : Bool
  rainfall_mm : ℚ
  warning : Bool
deriving DecidableEq, Repr

/-- Result dict of `check_and_process_rainfall`.  `rainfall_detected` is read
with `.get(...)` by the monitor, so error dicts behave as `false`. -/
structure CheckResult where
  success : Bool
  rainfall_detected : Bool
  error : Option String
  message : Option String
deriving DecidableEq, Repr

/-- Result dict of `complete_cycle`.  The source's only error branch is
`'Cycle not found'`; the claims concern cycles that exist, so the row is
always present here and that branch is unreachable. -/
structure CompleteResult where
  success : Bool
  error : Option String
  final_n : ℚ
  final_p : ℚ
  final_k : ℚ
  below_threshold : Bool
  can_continue : Bool
deriving DecidableEq, Repr

/-- What `WeatherAPIFetcher.get_current_weather` hands back, reduced to the
field the manager consumes. -/
structure Weather where
  rainfall : ℚ
deriving DecidableEq, Repr

/-- Outcome of the external weather call inside `check_and_process_rainfall`:
the `try` block raises (`err`), returns `None` (`nodata`), or returns data. -/
inductive WeatherOutcome where
  | err (msg : String)
  | nodata
  | ok (w : Weather)
deriving DecidableEq, Repr

/-- `RINDMCycleManager.process_rainfall_event`.  Order follows the source:
the depletion calculator runs first (its `ValueError`s propagate), then the
status check, then the database block — whose very first bound parameter is
`rainfall_mm / duration_hours`, raising `ZeroDivisionError` when
`duration_hours == 0` before anything is persisted. -/
def process_rainfall_event (s : CycleState) (now : ℕ) (rainfall_mm : ℚ)
    (duration_hours : ℚ) : Except String (CycleState × ProcessResult) :=
  match calculate_nutrient_loss rainfall_mm duration_hours
      s.cycle.current_n s.cycle.current_p s.cycle.current_k
      (some s.cycle.soil_type) none none none DEFAULT_SLOPE with
  | .error e => .error e
  | .ok loss_result =>
    let new_n := loss_result.N_remaining
    let new_p := loss_result.P_remaining
    let new_k := loss_result.K_remaining
    let status := check_nutrient_status new_n new_p new_k
    if duration_hours = 0 then
      .error "ZeroDivisionError: float division by zero"
    else
      let eventRec : RainfallEventRec :=
        { rainfall_mm := rainfall_mm
          duration_hours := duration_hours
          intensity_mm_per_hour := rainfall_mm / duration_hours
          n_before_event := s.cycle.current_n
          p_before_event := s.cycle.current_p
          k_before_event := s.cycle.current_k
          nutrient_loss_n := loss_result.N_loss
          nutrient_loss_p := loss_result.P_loss
          nutrient_loss_k := loss_result.K_loss
          n_after_event := new_n, p_after_event := new_p, k_after_event := new_k }
      let cycle' : Cycle :=
        { s.cycle with
          current_n := new_n, current_p := new_p, current_k := new_k
          total_rainfall_loss_n := s.cycle.total_rainfall_loss_n + loss_result.N_loss
          total_rainfall_loss_p := s.cycle.total_rainfall_loss_p + loss_result.P_loss
          total_rainfall_loss_k := s.cycle.total_rainfall_loss_k + loss_result.K_loss
          rainfall_event_count := s.cycle.rainfall_event_count + 1
          last_weather_check := now }
      let measurement : Measurement :=
        { mtype := .rainfall_update, n_kg_ha := new_n, p_kg_ha := new_p, k_kg_ha := new_k
          below_threshold := status.needs_soil_test }
      let alerts' :=
        if status.needs_soil_test then
          s.alerts ++ [{ current_n := new_n, current_p := new_p, current_k := new_k }]
        else s.alerts
      .ok ({ cycle := cycle'
             events := s.events ++ [eventRec]
             measurements := s.measurements ++ [measurement]
             alerts := alerts' },
           { success := true, rainfall_detected := true, rainfall_mm := rainfall_mm
             warning := status.needs_soil_test })

/-- Python truthiness of the latitude/longitude columns:
`not cycle.get('latitude')` is true for `NULL` and for `0`. -/
def coordTruthy : Option ℚ → Bool
  | none => false
  | some v => decide (v ≠ 0)

/-- `RINDMCycleManager.check_and_process_rainfall` (the `src/services` variant,
which the spec declares authoritative).  The weather call's outcome and the
random mock data (`get_mock_weather`) enter as parameters.  Note the source
falls back to mock weather when the collaborator returns no data, and only
skips (without mutation) when it raises. -/
def check_and_process_rainfall (s : CycleState) (now : ℕ) (wo : WeatherOutcome)
    (mock : Weather) : Except String (CycleState × CheckResult) :=
  if s.cycle.status ≠ .active then
    .ok (s, { success := false, rainfall_detected := false
              error := some "Cycle not found or not active", message := none })
  else if ¬ (coordTruthy s.cycle.latitude ∧ coordTruthy s.cycle.longitude) then
    .ok (s, { success := false, rainfall_detected := false
              error := some "No location data found for field or farmer. Please update location information."
              message := none })
  else
    let weather_data : Option Weather :=
      match wo with
      | .err _ => none
      | .nodata => some mock
      | .ok w => some w
    match wo with
    | .err msg =>
      .ok (s, { success := false, rainfall_detected := false
                error := some ("Weather API error: " ++ msg), message := none })
    | _ =>
      let w := weather_data.getD mock
      if w.rainfall ≤ 0 then
        .ok ({ s with cycle := { s.cycle with last_weather_check := now } },
             { success := true, rainfall_detected := false, error := none
               message := some "No rainfall detected" })
      else
        (process_rainfall_event s now w.rainfall 2).map fun r =>
          (r.1, { success := true, rainfall_detected := true, error := none
                  message := none })

/-- One iteration of the `for cycle in active_cycles` loop of
`WeatherMonitor.check_all_active_cycles`: the `try`/`except` catches any
exception, records it, and leaves that cycle's state untouched. -/
def monitor_step (now : ℕ) :
    CycleState × WeatherOutcome × Weather → CycleState × Bool × Option String :=
  fun c =>
    match check_and_process_rainfall c.1 now c.2.1 c.2.2 with
    | .ok r => (r.1, r.2.rainfall_detected, none)
    | .error e => (c.1, false, some e)

/-- `WeatherMonitor.check_all_active_cycles`: process every Active cycle in
turn; each cycle's weather outcome and mock sample are supplied per cycle. -/
def check_all_active_cycles (now : ℕ) :
    List (CycleState × WeatherOutcome × Weather) → List (CycleState × Bool × Option String)
  | [] => []
  | c :: rest => monitor_step now c :: check_all_active_cycles now rest

/-- `RINDMCycleManager.complete_cycle`.  The source's select has no status
filter (`WHERE cycle_id = %s` only), so completion applies to a cycle in any
status.  `CRITICAL_THRESHOLDS` are N 30 / P 10 / K 40. -/
def complete_cycle (s : CycleState) (now : ℕ) : CycleState × CompleteResult :=
  let c := s.cycle
  let final_n := max 0 (c.current_n - c.total_crop_uptake_n)
  let final_p := max 0 (c.current_p - c.total_crop_uptake_p)
  let final_k := max 0 (c.current_k - c.total_crop_uptake_k)
  let below_threshold : Bool :=
    decide (final_n < thresholds_critical .N) || decide (final_p < thresholds_critical .P) ||
      decide (final_k < thresholds_critical .K)
  ({ cycle :=
       { c with status := .completed, actual_end_date := some now
                final_n := some final_n, final_p := some final_p, final_k := some final_k }
     events := s.events
     measurements := s.measurements ++
       [{ mtype := .cycle_end, n_kg_ha := final_n, p_kg_ha := final_p, k_kg_ha := final_k
          below_threshold := below_threshold }]
     alerts := s.alerts },
   { success := true, error := none
     final_n := final_n, final_p := final_p, final_k := final_k
     below_threshold := below_threshold
     can_continue := !below_threshold })

/-! ## Concrete states used as witnesses and counterexamples -/

/-- A concrete Active cycle (the spec's running example: N=90, P=42, K=43 on
loamy soil) with coordinates present. -/
def sample_cycle : Cycle :=
  { status := .active, soil_type := .loamy
    current_n := 90, current_p := 42, current_k := 43
    initial_n := 90, initial_p := 42, initial_k := 43
    final_n := none, final_p := none, final_k := none
    total_crop_uptake_n := 120, total_crop_uptake_p := 35, total_crop_uptake_k := 40
    total_rainfall_loss_n := 0, total_rainfall_loss_p := 0, total_rainfall_loss_k := 0
    rainfall_event_count := 0, last_weather_check := 0, actual_end_date := none
    latitude := some 11, longitude := some 77 }

/-- Record-store state for `sample_cycle` right after `start_new_cycle`:
one `cycle_start` measurement, no events, no alerts. -/
def sample_state : CycleState :=
  { cycle := sample_cycle
    events := []
    measurements :=
      [{ mtype := .cycle_start, n_kg_ha := 90, p_kg_ha := 42, k_kg_ha := 43
         below_threshold := false }]
    alerts := [] }

/-- The conclusion bundle of claim C4 for one call of the depletion calculator:
validation passes and the call returns the core computation; each nutrient's
`total_loss` is the (rounded) `min(leaching + runoff, current)`; every
`remaining` is non-negative; and a zero current level forces zero loss and
zero remaining for that nutrient. -/
def lossInvariants (rainfall_mm duration_hours n p k slope : ℚ) (st : SoilType) : Prop :=
  calculate_nutrient_loss rainfall_mm duration_hours n p k (some st) none none none slope =
    Except.ok (nutrient_loss_core rainfall_mm duration_hours n p k st slope)
  ∧ (nutrient_loss_core rainfall_mm duration_hours n p k st slope).detailN.total_loss =
      round2 (min (leaching_loss_raw .N st n rainfall_mm +
        runoff_loss_raw .N st n (calculate_intensity_factor rainfall_mm duration_hours)
          (calculate_slope_factor slope)) n)
  ∧ (nutrient_loss_core rainfall_mm duration_hours n p k st slope).detailP.total_loss =
      round2 (min (leaching_loss_raw .P st p rainfall_mm +
        runoff_loss_raw .P st p (calculate_intensity_factor rainfall_mm duration_hours)
          (calculate_slope_factor slope)) p)
  ∧ (nutrient_loss_core rainfall_mm duration_hours n p k st slope).detailK.total_loss =
      round2 (min (leaching_loss_raw .K st k rainfall_mm +
        runoff_loss_raw .K st k (calculate_intensity_factor rainfall_mm duration_hours)
          (calculate_slope_factor slope)) k)
  ∧ 0 ≤ (nutrient_loss_core rainfall_mm duration_hours n p k st slope).N_remaining
  ∧ 0 ≤ (nutrient_loss_core rainfall_mm duration_hours n p k st slope).P_remaining
  ∧ 0 ≤ (nutrient_loss_core rainfall_mm duration_hours n p k st slope).K_remaining
  ∧ (n = 0 → (nutrient_loss_core rainfall_mm duration_hours n p k st slope).detailN.total_loss = 0
      ∧ (nutrient_loss_core rainfall_mm duration_hours n p k st slope).N_remaining = 0)
  ∧ (p = 0 → (nutrient_loss_core rainfall_mm duration_hours n p k st slope).detailP.total_loss = 0
      ∧ (nutrient_loss_core rainfall_mm duration_hours n p k st slope).P_remaining = 0)
  ∧ (k = 0 → (nutrient_loss_core rainfall_mm duration_hours n p k st slope).detailK.total_loss = 0
      ∧ (nutrient_loss_core rainfall_mm duration_hours n p k st slope).K_remaining = 0)

/-! ## Helper lemmas -/

theorem round2_nonneg {x : ℚ} (hx : 0 ≤ x) : 0 ≤ round2 x := by
  unfold round2
  have h1 : (0 : ℤ) ≤ round (x * 100) := by
    rw [round_eq]
    exact Int.floor_nonneg.mpr (by positivity)
  positivity

theorem round2_zero : round2 0 = 0 := by
  unfold round2
  norm_num

theorem coef_mono_helper {c1 c2 cur X : ℚ} (h : c1 < c2) (hcur : 0 < cur) (hX : 0 < X) :
    cur * c1 * X < cur * c2 * X := by
  have h1 : 0 < cur * X := mul_pos hcur hX
  nlinarith

theorem runoff_mono_helper {c1 c2 cur i sf : ℚ} (h : c1 < c2) (hcur : 0 < cur)
    (hi : 0 < i) (hsf : 0 < sf) : cur * c1 * i * sf < cur * c2 * i * sf := by
  have h1 : 0 < cur * i * sf := by positivity
  nlinarith

theorem isCriticalOrLow_of_low_le {nut : Nutrient} {v : ℚ}
    (hv : thresholds_low nut ≤ v) : isCriticalOrLow (get_status v nut) = false := by
  have hc : thresholds_critical nut ≤ thresholds_low nut := by
    cases nut <;> norm_num [thresholds_critical, thresholds_low]
  unfold get_status
  split_ifs with h1 h2 <;> first | rfl | (exfalso; linarith)

/-! ## Claim theorems -/

/-- C3 counterexample: the texture triple (sand 30, silt 40, clay 30) classifies
as `clay` — its clay share reaches the clay-loam cutoff 27 — not `Loamy` as the
claim's example asserts. -/
theorem C3_texture_30_40_30_is_clay :
    determine_soil_type (some 30) (some 40) (some 30) = Except.ok SoilType.clay
      ∧ SoilType.clay ≠ SoilType.loamy :=
  ⟨by norm_num [determine_soil_type], by decide⟩

/-- C3 (amended): classification fails when the three percentages do not sum to
100 within a 1-point tolerance, and otherwise follows the rule clay ≥ 40 →
Clay, else sand ≥ 50 → Sandy, else clay ≥ 27 → Clay, else Loamy; (80,10,10)
classifies Sandy and (20,30,50) classifies Clay, but (30,40,30) classifies
Clay (clay = 30 ≥ 27), not Loamy. -/
theorem C3_classification (sand silt clay : ℚ) :
    (¬ (99 ≤ sand + silt + clay ∧ sand + silt + clay ≤ 101) →
      determine_soil_type (some sand) (some silt) (some clay) =
        Except.error "Texture percentages must sum to 100")
    ∧ ((99 ≤ sand + silt + clay ∧ sand + silt + clay ≤ 101) →
      determine_soil_type (some sand) (some silt) (some clay) =
        Except.ok (soil_rule_spec sand clay))
    ∧ determine_soil_type (some 80) (some 10) (some 10) = Except.ok SoilType.sandy
    ∧ determine_soil_type (some 20) (some 30) (some 50) = Except.ok SoilType.clay
    ∧ determine_soil_type (some 30) (some 40) (some 30) = Except.ok SoilType.clay := by
  refine ⟨?_, ?_, by norm_num [determine_soil_type], by norm_num [determine_soil_type],
    by norm_num [determine_soil_type]⟩
  · intro h
    simp [determine_soil_type, h]
  · intro h
    simp only [determine_soil_type, soil_rule_spec]
    rw [if_neg (not_not_intro h)]
    split_ifs <;> first | rfl | linarith

/-- C3 witness: the in-tolerance branch of `C3_classification` applied at
(30, 40, 30), whose percentages sum to exactly 100. -/
theorem C3_classification_witness :
    (99 ≤ (30 : ℚ) + 40 + 30 ∧ (30 : ℚ) + 40 + 30 ≤ 101)
    ∧ determine_soil_type (some 30) (some 40) (some 30) =
        Except.ok (soil_rule_spec 30 30) :=
  ⟨by norm_num, (C3_classification 30 40 30).2.1 (by norm_num)⟩

/-- C10: threshold banding uses strict less-than at every cutoff, so a nutrient
exactly equal to a cutoff falls into the band above it; N = 30 is LOW (not
CRITICAL), N = 60 is MODERATE, N = 150 is HIGH; and `needs_soil_test` is false
whenever every nutrient is at or above its Low cutoff. -/
theorem C10_threshold_banding :
    (∀ nut : Nutrient,
      get_status (thresholds_critical nut) nut = BandLevel.LOW
      ∧ get_status (thresholds_low nut) nut = BandLevel.MODERATE
      ∧ get_status (thresholds_adequate nut) nut = BandLevel.GOOD
      ∧ get_status (thresholds_high nut) nut = BandLevel.HIGH)
    ∧ get_status 30 .N = BandLevel.LOW
    ∧ get_status 60 .N = BandLevel.MODERATE
    ∧ get_status 150 .N = BandLevel.HIGH
    ∧ ∀ n p k : ℚ, thresholds_low .N ≤ n → thresholds_low .P ≤ p →
        thresholds_low .K ≤ k → (check_nutrient_status n p k).needs_soil_test = false := by
  refine ⟨?_, by decide, by decide, by decide, ?_⟩
  · intro nut
    cases nut <;> refine ⟨by decide, by decide, by decide, by decide⟩
  · intro n p k hn hp hk
    show (isCriticalOrLow (get_status n .N) || isCriticalOrLow (get_status p .P) ||
      isCriticalOrLow (get_status k .K)) = false
    rw [isCriticalOrLow_of_low_le hn, isCriticalOrLow_of_low_le hp,
      isCriticalOrLow_of_low_le hk]
    rfl

/-- C10 witness: each nutrient sitting exactly at its Low cutoff
(N 60, P 20, K 80) yields `needs_soil_test = false`. -/
theorem C10_threshold_banding_witness :
    thresholds_low .N ≤ (60 : ℚ) ∧ thresholds_low .P ≤ (20 : ℚ)
    ∧ thresholds_low .K ≤ (80 : ℚ)
    ∧ (check_nutrient_status 60 20 80).needs_soil_test = false :=
  ⟨by decide, by decide, by decide,
    C10_threshold_banding.2.2.2.2 60 20 80 (by decide) (by decide) (by decide)⟩

/-- C4: for every valid input (non-negative rainfall, duration and nutrient
levels), each nutrient's `total_loss` is the capped `min(leaching + runoff,
current_level)`, every `remaining` is non-negative (hence current N/P/K never
go negative), and a zero current level forces zero loss and zero remaining. -/
theorem C4_loss_capped_remaining_nonneg (rainfall_mm duration_hours n p k slope : ℚ)
    (st : SoilType) (hr : 0 ≤ rainfall_mm) (hd : 0 ≤ duration_hours)
    (hn : 0 ≤ n) (hp : 0 ≤ p) (hk : 0 ≤ k) :
    lossInvariants rainfall_mm duration_hours n p k slope st := by
  have frame : ∀ (nut : Nutrient) (cur : ℚ), 0 ≤ cur →
      0 ≤ (mkNutrientDetail nut st cur rainfall_mm
        (calculate_intensity_factor rainfall_mm duration_hours)
        (calculate_slope_factor slope)).remaining := by
    intro nut cur hcur
    have hmin : min (leaching_loss_raw nut st cur rainfall_mm +
        runoff_loss_raw nut st cur (calculate_intensity_factor rainfall_mm duration_hours)
          (calculate_slope_factor slope)) cur ≤ cur := min_le_right _ _
    exact round2_nonneg (by linarith)
  have zero_case : ∀ nut : Nutrient,
      (mkNutrientDetail nut st 0 rainfall_mm
        (calculate_intensity_factor rainfall_mm duration_hours)
        (calculate_slope_factor slope)).total_loss = 0
      ∧ (mkNutrientDetail nut st 0 rainfall_mm
        (calculate_intensity_factor rainfall_mm duration_hours)
        (calculate_slope_factor slope)).remaining = 0 := by
    intro nut
    simp [mkNutrientDetail, leaching_loss_raw, runoff_loss_raw, round2_zero]
  refine ⟨?_, rfl, rfl, rfl, frame .N n hn, frame .P p hp, frame .K k hk, ?_, ?_, ?_⟩
  · unfold calculate_nutrient_loss
    rw [if_neg (not_lt.mpr hr), if_neg (not_lt.mpr hd),
      if_neg (by push_neg; exact ⟨hn, hp, hk⟩)]
  · intro h0; subst h0; exact zero_case .N
  · intro h0; subst h0; exact zero_case .P
  · intro h0; subst h0; exact zero_case .K

/-- C4 witness: the extreme input rainfall 300 mm over 1 hour on sandy soil at
current levels 90/42/43. -/
theorem C4_loss_capped_witness :
    (0 : ℚ) ≤ 300 ∧ (0 : ℚ) ≤ 1 ∧ (0 : ℚ) ≤ 90 ∧ (0 : ℚ) ≤ 42 ∧ (0 : ℚ) ≤ 43
    ∧ lossInvariants 300 1 90 42 43 3 .sandy :=
  ⟨by norm_num, by norm_num, by norm_num, by norm_num, by norm_num,
    C4_loss_capped_remaining_nonneg 300 1 90 42 43 3 .sandy (by norm_num) (by norm_num)
      (by norm_num) (by norm_num) (by norm_num)⟩

/-- C5 counterexample: with `rainfall_mm = 0` but `duration_hours = 0` the
intensity factor defaults to 0.5, so on loamy soil at N = 100 the nitrogen
`total_loss` is 100 · 0.15 · 0.5 · 1.2 = 9 ≠ 0 — rain-free loss, contradicting
the claim's quantification over `duration_hours <= 0`. -/
theorem C5_zero_rainfall_zero_duration_cx :
    (calculate_nutrient_loss 0 0 100 100 100 (some SoilType.loamy) none none none 3).map
        (fun r => r.detailN.total_loss) = Except.ok 9
    ∧ (9 : ℚ) ≠ 0 := by
  constructor
  · norm_num [calculate_nutrient_loss, nutrient_loss_core, mkNutrientDetail,
      leaching_loss_raw, runoff_loss_raw, calculate_intensity_factor,
      calculate_slope_factor, LEACHING_COEFFICIENTS, RUNOFF_COEFFICIENTS,
      round2, round_eq, Except.map]
  · norm_num

/-- C5 (amended): with `rainfall_mm = 0` and *positive* `duration_hours`, the
total loss is 0 for every soil class and every nutrient; at
`duration_hours = 0` the 0.5 default intensity can produce a positive runoff
loss even with zero rainfall (see the counterexample). -/
theorem C5_zero_rainfall_zero_loss (duration_hours n p k slope : ℚ) (st : SoilType)
    (hd : 0 < duration_hours) (hn : 0 ≤ n) (hp : 0 ≤ p) (hk : 0 ≤ k) :
    calculate_nutrient_loss 0 duration_hours n p k (some st) none none none slope =
      Except.ok (nutrient_loss_core 0 duration_hours n p k st slope)
    ∧ (nutrient_loss_core 0 duration_hours n p k st slope).detailN.total_loss = 0
    ∧ (nutrient_loss_core 0 duration_hours n p k st slope).detailP.total_loss = 0
    ∧ (nutrient_loss_core 0 duration_hours n p k st slope).detailK.total_loss = 0 := by
  have hi : calculate_intensity_factor 0 duration_hours = 0 := by
    unfold calculate_intensity_factor
    rw [if_neg (not_le.mpr hd)]
    simp
  have zero_loss : ∀ (nut : Nutrient) (cur : ℚ), 0 ≤ cur →
      (mkNutrientDetail nut st cur 0 (calculate_intensity_factor 0 duration_hours)
        (calculate_slope_factor slope)).total_loss = 0 := by
    intro nut cur hcur
    simp [mkNutrientDetail, leaching_loss_raw, runoff_loss_raw, hi,
      min_eq_left hcur, round2_zero]
  refine ⟨?_, zero_loss .N n hn, zero_loss .P p hp, zero_loss .K k hk⟩
  unfold calculate_nutrient_loss
  rw [if_neg (by norm_num), if_neg (not_lt.mpr (le_of_lt hd)),
    if_neg (by push_neg; exact ⟨hn, hp, hk⟩)]

/-- C5 witness: zero rainfall over 2 hours on loamy soil at levels 100/100/100
loses nothing. -/
theorem C5_zero_rainfall_witness :
    (0 : ℚ) < 2 ∧ (0 : ℚ) ≤ 100
    ∧ ((calculate_nutrient_loss 0 2 100 100 100 (some SoilType.loamy) none none none 3 =
          Except.ok (nutrient_loss_core 0 2 100 100 100 SoilType.loamy 3))
        ∧ (nutrient_loss_core 0 2 100 100 100 SoilType.loamy 3).detailN.total_loss = 0
        ∧ (nutrient_loss_core 0 2 100 100 100 SoilType.loamy 3).detailP.total_loss = 0
        ∧ (nutrient_loss_core 0 2 100 100 100 SoilType.loamy 3).detailK.total_loss = 0) :=
  ⟨by norm_num, by norm_num,
    C5_zero_rainfall_zero_loss 2 100 100 100 3 .loamy (by norm_num) (by norm_num)
      (by norm_num) (by norm_num)⟩

/-- C8: for every nutrient and all positive rainfall, duration and current
level (and non-negative slope), the leaching loss is strictly ordered
Sandy > Loamy > Clay and the runoff loss is strictly ordered
Clay > Loamy > Sandy. -/
theorem C8_soil_type_ordering (nut : Nutrient) (rainfall_mm duration_hours cur slope : ℚ)
    (hr : 0 < rainfall_mm) (hd : 0 < duration_hours) (hc : 0 < cur) (hs : 0 ≤ slope) :
    (leaching_loss_raw nut .loamy cur rainfall_mm <
        leaching_loss_raw nut .sandy cur rainfall_mm
      ∧ leaching_loss_raw nut .clay cur rainfall_mm <
        leaching_loss_raw nut .loamy cur rainfall_mm)
    ∧ (runoff_loss_raw nut .loamy cur
          (calculate_intensity_factor rainfall_mm duration_hours)
          (calculate_slope_factor slope) <
        runoff_loss_raw nut .clay cur
          (calculate_intensity_factor rainfall_mm duration_hours)
          (calculate_slope_factor slope)
      ∧ runoff_loss_raw nut .sandy cur
          (calculate_intensity_factor rainfall_mm duration_hours)
          (calculate_slope_factor slope) <
        runoff_loss_raw nut .loamy cur
          (calculate_intensity_factor rainfall_mm duration_hours)
          (calculate_slope_factor slope)) := by
  have hX : 0 < rainfall_mm / 100 := by positivity
  have hi : 0 < calculate_intensity_factor rainfall_mm duration_hours := by
    unfold calculate_intensity_factor
    rw [if_neg (not_le.mpr hd)]
    exact lt_min one_pos (by positivity)
  have hsf : 0 < calculate_slope_factor slope := by
    unfold calculate_slope_factor
    have h0 : 0 ≤ min (slope / 15) 1 := le_min (by positivity) zero_le_one
    linarith
  unfold leaching_loss_raw runoff_loss_raw
  refine ⟨⟨coef_mono_helper ?_ hc hX, coef_mono_helper ?_ hc hX⟩,
    runoff_mono_helper ?_ hc hi hsf, runoff_mono_helper ?_ hc hi hsf⟩ <;>
    cases nut <;> norm_num [LEACHING_COEFFICIENTS, RUNOFF_COEFFICIENTS]

/-- C8 witness: nitrogen at 50 mm over 2 hours, current level 90, slope 3°. -/
theorem C8_soil_type_ordering_witness :
    (0 : ℚ) < 50 ∧ (0 : ℚ) < 2 ∧ (0 : ℚ) < 90 ∧ (0 : ℚ) ≤ 3
    ∧ ((leaching_loss_raw .N .loamy 90 50 < leaching_loss_raw .N .sandy 90 50
        ∧ leaching_loss_raw .N .clay 90 50 < leaching_loss_raw .N .loamy 90 50)
      ∧ (runoff_loss_raw .N .loamy 90 (calculate_intensity_factor 50 2)
            (calculate_slope_factor 3) <
          runoff_loss_raw .N .clay 90 (calculate_intensity_factor 50 2)
            (calculate_slope_factor 3)
        ∧ runoff_loss_raw .N .sandy 90 (calculate_intensity_factor 50 2)
            (calculate_slope_factor 3) <
          runoff_loss_raw .N .loamy 90 (calculate_intensity_factor 50 2)
            (calculate_slope_factor 3))) :=
  ⟨by norm_num, by norm_num, by norm_num, by norm_num,
    C8_soil_type_ordering .N 50 2 90 3 (by norm_num) (by norm_num) (by norm_num)
      (by norm_num)⟩

theorem foldl_step_error (soil_type : Option SoilType) (sand_pct silt_pct clay_pct : Option ℚ)
    (msg : String) :
    ∀ evts : List RainEvent,
      evts.foldl (single_event_step soil_type sand_pct silt_pct clay_pct)
        (.error msg) = .error msg
  | [] => rfl
  | e :: rest => by
    rw [List.foldl_cons]
    have h : single_event_step soil_type sand_pct silt_pct clay_pct (.error msg) e =
        .error msg := rfl
    rw [h, foldl_step_error soil_type sand_pct silt_pct clay_pct msg rest]

theorem cumulativeLoop_eq_fold (soil_type : Option SoilType)
    (sand_pct silt_pct clay_pct : Option ℚ) :
    ∀ (evts : List RainEvent) (n p k : ℚ) (acc : List EventDetail) (i : ℕ),
      (cumulativeLoop soil_type sand_pct silt_pct clay_pct evts n p k acc i).map
          (fun r => (r.1, r.2.1, r.2.2.1)) =
        cumulative_fold_spec soil_type sand_pct silt_pct clay_pct evts (n, p, k)
  | [], _, _, _, _, _ => rfl
  | e :: rest, n, p, k, acc, i => by
    unfold cumulativeLoop cumulative_fold_spec
    rw [List.foldl_cons]
    cases h : calculate_nutrient_loss e.rainfall_mm (e.duration_hours.getD 2)
        n p k soil_type sand_pct silt_pct clay_pct DEFAULT_SLOPE with
    | error msg =>
      have hstep : single_event_step soil_type sand_pct silt_pct clay_pct
          (.ok (n, p, k)) e = .error msg := by
        show Except.map _ (calculate_nutrient_loss e.rainfall_mm (e.duration_hours.getD 2)
          n p k soil_type sand_pct silt_pct clay_pct DEFAULT_SLOPE) = _
        rw [h]
        rfl
      rw [hstep, foldl_step_error]
      rfl
    | ok r =>
      have hstep : single_event_step soil_type sand_pct silt_pct clay_pct
          (.ok (n, p, k)) e = .ok (r.N_remaining, r.P_remaining, r.K_remaining) := by
        show Except.map _ (calculate_nutrient_loss e.rainfall_mm (e.duration_hours.getD 2)
          n p k soil_type sand_pct silt_pct clay_pct DEFAULT_SLOPE) = _
        rw [h]
        rfl
      rw [hstep]
      exact cumulativeLoop_eq_fold soil_type sand_pct silt_pct clay_pct rest
        r.N_remaining r.P_remaining r.K_remaining _ (i + 1)

/-- C7: the cumulative-loss computation refines the left-to-right fold of the
single-event calculator with each event's `remaining` carried forward (the
final reported values being the fold's result rounded once more for output),
and re-running it on the same inputs is deterministic — immediate here since
the embedding is a pure function. -/
theorem C7_cumulative_is_fold (rainfall_events : List RainEvent)
    (initial_N initial_P initial_K : ℚ) (soil_type : Option SoilType)
    (sand_pct silt_pct clay_pct : Option ℚ) :
    (calculate_cumulative_loss rainfall_events initial_N initial_P initial_K
        soil_type sand_pct silt_pct clay_pct).map
        (fun r => (r.final_N, r.final_P, r.final_K)) =
      (cumulative_fold_spec soil_type sand_pct silt_pct clay_pct rainfall_events
        (initial_N, initial_P, initial_K)).map
        (fun t => (round2 t.1, round2 t.2.1, round2 t.2.2))
    ∧ calculate_cumulative_loss rainfall_events initial_N initial_P initial_K
        soil_type sand_pct silt_pct clay_pct =
      calculate_cumulative_loss rainfall_events initial_N initial_P initial_K
        soil_type sand_pct silt_pct clay_pct := by
  refine ⟨?_, rfl⟩
  rw [← cumulativeLoop_eq_fold soil_type sand_pct silt_pct clay_pct rainfall_events
    initial_N initial_P initial_K [] 0]
  unfold calculate_cumulative_loss
  cases cumulativeLoop soil_type sand_pct silt_pct clay_pct rainfall_events
      initial_N initial_P initial_K [] 0 with
  | error msg => rfl
  | ok r => rfl

/-- C9 counterexample: calling `process_rainfall_event` with a *negative*
rainfall amount and `duration_hours = 0` raises the calculator's
`ValueError`, not a division-by-zero error — refuting the claim's
quantification over "any rainfall amount". -/
theorem C9_negative_rainfall_cx :
    process_rainfall_event sample_state 0 (-1) 0 =
      Except.error "Rainfall cannot be negative"
    ∧ "Rainfall cannot be negative" ≠ "ZeroDivisionError: float division by zero" := by
  constructor
  · norm_num [process_rainfall_event, calculate_nutrient_loss, sample_state, sample_cycle]
  · decide

/-- C9 (amended): for non-negative rainfall and non-negative current nutrient
levels, `process_rainfall_event` with `duration_hours = 0` fails with a
division-by-zero error while computing the stored intensity, before anything
is persisted (no result state is produced), even though the depletion
calculator itself accepts `duration_hours = 0` via the 0.5 default intensity;
with negative rainfall the calculator's `InvalidInput` error preempts it. -/
theorem C9_zero_duration_division (s : CycleState) (now : ℕ) (rainfall_mm : ℚ)
    (hr : 0 ≤ rainfall_mm) (hn : 0 ≤ s.cycle.current_n) (hp : 0 ≤ s.cycle.current_p)
    (hk : 0 ≤ s.cycle.current_k) :
    process_rainfall_event s now rainfall_mm 0 =
      Except.error "ZeroDivisionError: float division by zero"
    ∧ calculate_nutrient_loss rainfall_mm 0 s.cycle.current_n s.cycle.current_p
        s.cycle.current_k (some s.cycle.soil_type) none none none DEFAULT_SLOPE =
      Except.ok (nutrient_loss_core rainfall_mm 0 s.cycle.current_n s.cycle.current_p
        s.cycle.current_k s.cycle.soil_type DEFAULT_SLOPE) := by
  have hcalc : calculate_nutrient_loss rainfall_mm 0 s.cycle.current_n s.cycle.current_p
      s.cycle.current_k (some s.cycle.soil_type) none none none DEFAULT_SLOPE =
      Except.ok (nutrient_loss_core rainfall_mm 0 s.cycle.current_n s.cycle.current_p
        s.cycle.current_k s.cycle.soil_type DEFAULT_SLOPE) := by
    unfold calculate_nutrient_loss
    rw [if_neg (not_lt.mpr hr), if_neg (by norm_num),
      if_neg (by push_neg; exact ⟨hn, hp, hk⟩)]
  refine ⟨?_, hcalc⟩
  unfold process_rainfall_event
  rw [hcalc]
  simp

/-- C9 witness: 20 mm of rainfall with zero duration on the sample cycle. -/
theorem C9_zero_duration_witness :
    (0 : ℚ) ≤ 20 ∧ (0 : ℚ) ≤ sample_state.cycle.current_n
    ∧ (process_rainfall_event sample_state 0 20 0 =
          Except.error "ZeroDivisionError: float division by zero"
        ∧ calculate_nutrient_loss 20 0 sample_state.cycle.current_n
            sample_state.cycle.current_p sample_state.cycle.current_k
            (some sample_state.cycle.soil_type) none none none DEFAULT_SLOPE =
          Except.ok (nutrient_loss_core 20 0 sample_state.cycle.current_n
            sample_state.cycle.current_p sample_state.cycle.current_k
            sample_state.cycle.soil_type DEFAULT_SLOPE)) :=
  ⟨by norm_num, by norm_num [sample_state, sample_cycle],
    C9_zero_duration_division sample_state 0 20 (by norm_num)
      (by norm_num [sample_state, sample_cycle])
      (by norm_num [sample_state, sample_cycle])
      (by norm_num [sample_state, sample_cycle])⟩

/-- C6: on an Active cycle with coordinates present, a weather reading with
`rainfall_mm ≤ 0` only advances `last_weather_check` and reports "No rainfall
detected": no RainfallEvent, no measurement, no alert, and current N/P/K and
cumulative loss totals unchanged. -/
theorem C6_no_rain_only_timestamp (s : CycleState) (now : ℕ) (w mock : Weather)
    (hact : s.cycle.status = CycleStatus.active)
    (hlat : coordTruthy s.cycle.latitude = true)
    (hlon : coordTruthy s.cycle.longitude = true)
    (hr : w.rainfall ≤ 0) :
    check_and_process_rainfall s now (.ok w) mock =
      Except.ok ({ s with cycle := { s.cycle with last_weather_check := now } },
        { success := true, rainfall_detected := false, error := none
          message := some "No rainfall detected" })
    ∧ ({ s with cycle := { s.cycle with last_weather_check := now } } : CycleState).events =
        s.events
    ∧ ({ s with cycle := { s.cycle with last_weather_check := now } } : CycleState).measurements =
        s.measurements
    ∧ ({ s with cycle := { s.cycle with last_weather_check := now } } : CycleState).alerts =
        s.alerts
    ∧ ({ s with cycle := { s.cycle with last_weather_check := now } } : CycleState).cycle.current_n =
        s.cycle.current_n
    ∧ ({ s with cycle := { s.cycle with last_weather_check := now } } : CycleState).cycle.current_p =
        s.cycle.current_p
    ∧ ({ s with cycle := { s.cycle with last_weather_check := now } } : CycleState).cycle.current_k =
        s.cycle.current_k
    ∧ ({ s with cycle := { s.cycle with last_weather_check := now } } : CycleState).cycle.total_rainfall_loss_n =
        s.cycle.total_rainfall_loss_n
    ∧ ({ s with cycle := { s.cycle with last_weather_check := now } } : CycleState).cycle.total_rainfall_loss_p =
        s.cycle.total_rainfall_loss_p
    ∧ ({ s with cycle := { s.cycle with last_weather_check := now } } : CycleState).cycle.total_rainfall_loss_k =
        s.cycle.total_rainfall_loss_k
    ∧ ({ s with cycle := { s.cycle with last_weather_check := now } } : CycleState).cycle.rainfall_event_count =
        s.cycle.rainfall_event_count := by
  refine ⟨?_, rfl, rfl, rfl, rfl, rfl, rfl, rfl, rfl, rfl, rfl⟩
  simp [check_and_process_rainfall, hact, hlat, hlon, hr]

/-- C6 witness: the sample Active cycle at a zero-rainfall reading. -/
theorem C6_no_rain_witness :
    sample_state.cycle.status = CycleStatus.active
    ∧ coordTruthy sample_state.cycle.latitude = true
    ∧ coordTruthy sample_state.cycle.longitude = true
    ∧ (Weather.mk 0).rainfall ≤ 0
    ∧ check_and_process_rainfall sample_state 5 (.ok (Weather.mk 0)) (Weather.mk 7) =
        Except.ok ({ sample_state with
            cycle := { sample_state.cycle with last_weather_check := 5 } },
          { success := true, rainfall_detected := false, error := none
            message := some "No rainfall detected" }) :=
  ⟨rfl, by decide, by decide, by norm_num,
    (C6_no_rain_only_timestamp sample_state 5 (Weather.mk 0) (Weather.mk 7) rfl
      (by decide) (by decide) (by norm_num)).1⟩

/-- C2 counterexample: when the weather collaborator returns *no data*, the
manager substitutes mock weather rather than skipping; with a mock sample
reporting 10 mm the tick creates a RainfallEvent for the cycle (`events`
grows from 0 to 1) and reports rainfall detected — a state mutation the claim
rules out. -/
theorem C2_nodata_mock_mutates :
    (check_all_active_cycles 1 [(sample_state, WeatherOutcome.nodata, Weather.mk 10)]).map
        (fun t => (t.1.events.length, t.2.1)) = [(1, true)]
    ∧ sample_state.events.length = 0 := by
  constructor
  · norm_num [check_all_active_cycles, monitor_step, check_and_process_rainfall,
      process_rainfall_event, calculate_nutrient_loss, nutrient_loss_core,
      mkNutrientDetail, leaching_loss_raw, runoff_loss_raw, calculate_intensity_factor,
      calculate_slope_factor, LEACHING_COEFFICIENTS, RUNOFF_COEFFICIENTS, round2,
      round_eq, check_nutrient_status, get_status, thresholds_critical, thresholds_low,
      thresholds_adequate, thresholds_high, isCriticalOrLow, status_priority,
      sample_state, sample_cycle, coordTruthy, DEFAULT_SLOPE]
    exact ⟨rfl, rfl⟩
  · rfl

/-- C2 (amended): when the weather collaborator *raises* (timeout/transport
error), the cycle is skipped for the tick with no state mutation and an
unsuccessful result, and the monitor processes every cycle of the batch
independently (one failing collaborator cannot block the rest); when the
collaborator merely returns no data, the manager falls back to mock weather
and may mutate state (see the counterexample). -/
theorem C2_weather_error_skips :
    (∀ (s : CycleState) (now : ℕ) (msg : String) (mock : Weather),
      ∃ r : CheckResult,
        check_and_process_rainfall s now (.err msg) mock = Except.ok (s, r)
          ∧ r.success = false ∧ r.rainfall_detected = false)
    ∧ (∀ (now : ℕ) (batch : List (CycleState × WeatherOutcome × Weather)),
        check_all_active_cycles now batch = batch.map (monitor_step now)) := by
  constructor
  · intro s now msg mock
    unfold check_and_process_rainfall
    split_ifs with h1 h2
    · exact ⟨_, rfl, rfl, rfl⟩
    · exact ⟨_, rfl, rfl, rfl⟩
    · exact ⟨_, rfl, rfl, rfl⟩
  · intro now batch
    induction batch with
    | nil => rfl
    | cons c rest ih => simp [check_all_active_cycles, ih]

/-- C1: `complete_cycle` has no status guard — completing an already-Completed
cycle does not fail with `CycleNotActive`: the second call succeeds again,
recomputes the same final values from the (never-mutated) current levels, and
appends a duplicate `cycle_end` measurement.  Uptake is not double-subtracted
only because completion never writes back to `current_n/p/k`. -/
theorem C1_double_completion_not_rejected (s : CycleState) (t1 t2 : ℕ) :
    (complete_cycle s t1).1.cycle.status = CycleStatus.completed
    ∧ (complete_cycle (complete_cycle s t1).1 t2).2.success = true
    ∧ (complete_cycle (complete_cycle s t1).1 t2).2.error = none
    ∧ (complete_cycle (complete_cycle s t1).1 t2).1.measurements.length =
        (complete_cycle s t1).1.measurements.length + 1
    ∧ (complete_cycle (complete_cycle s t1).1 t2).1.cycle.current_n =
        (complete_cycle s t1).1.cycle.current_n
    ∧ (complete_cycle (complete_cycle s t1).1 t2).1.cycle.current_p =
        (complete_cycle s t1).1.cycle.current_p
    ∧ (complete_cycle (complete_cycle s t1).1 t2).1.cycle.current_k =
        (complete_cycle s t1).1.cycle.current_k
    ∧ (complete_cycle (complete_cycle s t1).1 t2).1.cycle.final_n =
        (complete_cycle s t1).1.cycle.final_n
    ∧ (complete_cycle (complete_cycle s t1).1 t2).1.cycle.final_p =
        (complete_cycle s t1).1.cycle.final_p
    ∧ (complete_cycle (complete_cycle s t1).1 t2).1.cycle.final_k =
        (complete_cycle s t1).1.cycle.final_k
    ∧ (complete_cycle (complete_cycle s t1).1 t2).1.cycle.status =
        CycleStatus.completed := by
  refine ⟨rfl, rfl, rfl, ?_, rfl, rfl, rfl, rfl, rfl, rfl, rfl⟩
  simp [complete_cycle]

end CropSense
